import Mathlib

/-!
Shallow embedding of the Hack-truth video-authenticity pipeline
(`backend/app/check_video.py`, `backend/app/db.py`) and proofs about it.

Floating-point scalars are modelled as rationals (`ℚ`); the float `NaN`
that `numpy.mean` returns on an empty list is modelled as `none` of an
`Option ℚ` result.  External numerical routines (OpenCV decoding and
colour conversion, the dense optical-flow call, the FFT front end) are
modelled as parameters or as the data they produce, as documented on
each definition.
-/

namespace HackTruth

/-! ### Verdict policy: `predict_ai_video` (check_video.py lines 295-308) -/

/-- The Korean verdict string "AI 생성 가능성 있음" ("possibly AI-generated",
i.e. "likely synthetic"). -/
def syntheticVerdict : String := "AI 생성 가능성 있음"

/-- The Korean verdict string "실제 영상 가능성 있음" ("possibly a real video",
i.e. "likely authentic"). -/
def authenticVerdict : String := "실제 영상 가능성 있음"

/-- Shallow embedding of `predict_ai_video(fft_score, motion_score)`.
The Python local variable `result` starts unassigned (`none` models the
unassigned state); the first conditional chain assigns it from the motion
score (no assignment when `3.7 < motion_score < 6.1`), and the second
if/else then reassigns it from the artifact score on every path, shadowing
whatever the first chain stored. -/
def predict_ai_video (fft_score motion_score : ℚ) : Option String :=
  let result : Option String :=
    if motion_score ≤ 37/10 then some syntheticVerdict
    else if motion_score ≥ 61/10 then some authenticVerdict
    else none
  let result : Option String :=
    if fft_score ≤ 5/10 ∨ fft_score ≥ 62/100 then some syntheticVerdict
    else some authenticVerdict
  result

/-- C1: at artifact score 0.55 (strictly inside the (0.5, 0.62) band) and
motion score 0 (at or below the 3.7 low-motion floor) the code returns the
"likely authentic" verdict, although the claimed policy says a motion score
at most the floor forces "likely synthetic" regardless of the artifact
score: the final artifact-score conditional overwrites the motion branch. -/
theorem C1_low_motion_floor_overridden :
    predict_ai_video (55/100) 0 = some authenticVerdict := by
  norm_num [predict_ai_video]

/-! ### Artifact scorer: `fft_artifact_score`, `analyze_fft`
(check_video.py lines 253-275) -/

/-- The index region `[center_h - radius : center_h + radius,
center_w - radius : center_w + radius]` that the NumPy slice assignment
`mask[...] = False` removes from the all-ones mask, for a spectrum of
shape `h × w`: `center_h = h // 2`, `center_w = w // 2`,
`radius = min(center_h, center_w) // 4`. -/
def lowFreqRegion (h w i j : Nat) : Bool :=
  let center_h := h / 2
  let center_w := w / 2
  let radius := min center_h center_w / 4
  decide (center_h - radius ≤ i) && decide (i < center_h + radius) &&
    decide (center_w - radius ≤ j) && decide (j < center_w + radius)

/-- Shallow embedding of `fft_artifact_score(frame)`.  The NumPy front end
`magnitude_spectrum = np.abs(np.fft.fftshift(np.fft.fft2(frame)))` is an
external numerical routine; the function is modelled on the magnitude
spectrum it produces (an `h × w` matrix of nonnegative magnitudes, the
all-zero frame yielding the all-zero spectrum by linearity of the DFT).
The mask construction, the two energy sums and the zero-division guard are
translated directly from the source. -/
def fft_artifact_score (magnitude_spectrum : List (List ℚ)) : ℚ :=
  let h := magnitude_spectrum.length
  let w := (magnitude_spectrum.headD []).length
  let mask : Nat → Nat → Bool := fun i j => !(lowFreqRegion h w i j)
  let high_freq_energy : ℚ :=
    ((magnitude_spectrum.enum).map fun p =>
      ((p.2.enum).map fun q => if mask p.1 q.1 then q.2 else 0).sum).sum
  let total_energy : ℚ := (magnitude_spectrum.map List.sum).sum
  if total_energy = 0 then 0 else high_freq_energy / total_energy

/-- The total spectral energy `np.sum(magnitude_spectrum)`: the sum of all
entries of the magnitude spectrum. -/
def totalEnergy (magnitude_spectrum : List (List ℚ)) : ℚ :=
  (magnitude_spectrum.map List.sum).sum

/-- The high-frequency energy `np.sum(magnitude_spectrum[mask])`: the sum
of the entries lying outside the central low-frequency square. -/
def highFreqEnergy (magnitude_spectrum : List (List ℚ)) : ℚ :=
  ((magnitude_spectrum.enum).map fun p =>
    ((p.2.enum).map fun q =>
      if lowFreqRegion magnitude_spectrum.length
          (magnitude_spectrum.headD []).length p.1 q.1 then 0 else q.2).sum).sum

theorem ite_not_swap {b : Bool} (x : ℚ) :
    (if !b then x else 0) = (if b then 0 else x) := by
  cases b <;> simp

/-- C5: for every magnitude spectrum with zero total energy (in particular
the spectrum of an all-zero frame) the per-frame artifact score is exactly
0, the division being guarded; for every spectrum with nonzero total
energy the score is the high-frequency energy — the energy outside the
central square of half-width `min(h//2, w//2)//4` — divided by the total
energy. -/
theorem C5_fft_artifact_score_spec (M : List (List ℚ)) :
    (totalEnergy M = 0 → fft_artifact_score M = 0) ∧
    (totalEnergy M ≠ 0 →
      fft_artifact_score M = highFreqEnergy M / totalEnergy M) := by
  have hscore : fft_artifact_score M =
      if totalEnergy M = 0 then 0 else highFreqEnergy M / totalEnergy M := by
    simp only [fft_artifact_score, totalEnergy, highFreqEnergy, ite_not_swap]
  constructor
  · intro h
    rw [hscore, if_pos h]
  · intro h
    rw [hscore, if_neg h]

/-- C5 witness: the 2×2 all-zero spectrum has zero total energy and scores
exactly 0; the spectrum `[[1, 2], [3, 4]]` has nonzero total energy and
scores the high-frequency/total energy ratio. -/
theorem C5_fft_artifact_score_spec_witness :
    totalEnergy [[0, 0], [0, 0]] = 0 ∧
    fft_artifact_score [[0, 0], [0, 0]] = 0 ∧
    totalEnergy [[1, 2], [3, 4]] ≠ 0 ∧
    fft_artifact_score [[1, 2], [3, 4]] =
      highFreqEnergy [[1, 2], [3, 4]] / totalEnergy [[1, 2], [3, 4]] := by
  refine ⟨by norm_num [totalEnergy],
    (C5_fft_artifact_score_spec _).1 (by norm_num [totalEnergy]),
    by norm_num [totalEnergy],
    (C5_fft_artifact_score_spec _).2 (by norm_num [totalEnergy])⟩

/-- `np.mean` over a list of scalars: the float `NaN` returned for an
empty list is modelled as `none`; otherwise the arithmetic mean. -/
def npMean (xs : List ℚ) : Option ℚ :=
  if xs.isEmpty then none else some (xs.sum / xs.length)

/-- Shallow embedding of `analyze_fft(frames)`: the mean of the per-frame
artifact scores (frames modelled by their magnitude spectra, see
`fft_artifact_score`). -/
def analyze_fft (frames : List (List (List ℚ))) : Option ℚ :=
  npMean (frames.map fft_artifact_score)

/-- C2 counterexample: on the empty frame sequence `analyze_fft` returns
the float `NaN` (`np.mean` of an empty list, modelled as `none`) as a
normal value; no `EmptyFrameSequenceError` is signalled — no such
exception exists anywhere in the code. -/
theorem C2_empty_input_returns_nan : analyze_fft [] = none := rfl

/-- C2 amended: `analyze_fft` returns the float `NaN` (modelled `none`)
exactly on the empty frame sequence, rather than signalling an
empty-input error; on every non-empty sequence it returns the mean of the
per-frame scores. -/
theorem C2_analyze_fft_nan_iff_empty (frames : List (List (List ℚ))) :
    analyze_fft frames = none ↔ frames = [] := by
  cases frames <;> simp [analyze_fft, npMean]

/-! ### Motion scorer: `analyze_motion` (check_video.py lines 281-289) -/

/-- Shallow embedding of `analyze_motion(frames)`.  The loop
`for i in range(1, len(frames))` scores the consecutive pairs
`(frames[i-1], frames[i])`, which are exactly `frames.zip frames.tail`;
`pairScore prev curr` models the external per-pair computation
`np.mean(mag)` of the magnitudes from
`cv2.calcOpticalFlowFarneback(prev, curr, None, 0.5, 3, 15, 3, 5, 1.2, 0)`
followed by `cv2.cartToPolar`.  The final `np.mean` of the pair scores is
the float `NaN` (modelled `none`) when there is no pair. -/
def analyze_motion {α : Type} (pairScore : α → α → ℚ) (frames : List α) :
    Option ℚ :=
  let flow_scores := (frames.zip frames.tail).map fun p => pairScore p.1 p.2
  npMean flow_scores

/-- C3 counterexample: on a one-frame sequence `analyze_motion` returns
the float `NaN` (`np.mean` of the empty pair-score list, modelled `none`)
as a normal value; no `InsufficientFramesForMotionError` is signalled —
no such exception exists anywhere in the code. -/
theorem C3_single_frame_returns_nan :
    analyze_motion (fun _ _ => (0 : ℚ)) [([[1]] : List (List ℚ))] = none := rfl

/-- C3 amended: `analyze_motion` returns the float `NaN` (modelled `none`)
exactly when the sequence has fewer than 2 frames, rather than signalling
a typed error; the `NaN` placeholder stands in for the undefined
empty-mean (it is not coerced to `0`, but no error is raised either). -/
theorem C3_analyze_motion_nan_iff_short {α : Type} (pairScore : α → α → ℚ)
    (frames : List α) :
    analyze_motion pairScore frames = none ↔ frames.length < 2 := by
  match frames with
  | [] => simp [analyze_motion, npMean]
  | [a] => simp [analyze_motion, npMean]
  | a :: b :: t => simp [analyze_motion, npMean]

/-! ### Frame sampler: `sample_frames` (check_video.py lines 236-247) -/

/-- A video file as seen through `cv2.VideoCapture(video_path)`:
`opened` records whether the decoder could open the file (the constructor
itself never raises); `frames` lists the stream's frame slots in temporal
order, `none` marking a slot whose decode fails.  An unopened capture
reports a frame count of 0 and every read on it fails. -/
structure Capture (α : Type) where
  opened : Bool
  frames : List (Option α)

/-- `int(cap.get(cv2.CAP_PROP_FRAME_COUNT))`: the stream's frame count,
or 0 when the capture is not opened. -/
def Capture.frameCount {α : Type} (cap : Capture α) : Nat :=
  if cap.opened then cap.frames.length else 0

/-- `cap.set(cv2.CAP_PROP_POS_FRAMES, i)` followed by `cap.read()`:
`some frame` exactly when the capture is open, `i` is in range and the
decode at slot `i` succeeds (`ret` is `True`). -/
def Capture.readAt {α : Type} (cap : Capture α) (i : Nat) : Option α :=
  if cap.opened then cap.frames.getD i none else none

/-- Python `range(0, stop, step)` for a positive `step`: the
`⌈stop/step⌉` multiples of `step` below `stop`, in ascending order. -/
def pyRange (stop step : Nat) : List Nat :=
  (List.range ((stop + step - 1) / step)).map fun k => k * step

/-- Shallow embedding of `sample_frames(video_path, sample_rate)`.
`cvtGray` models the external colour conversion
`cv2.cvtColor(frame, cv2.COLOR_BGR2GRAY)`.  The loop walks the indices
`range(0, total_frames, sample_rate)`, seeks and reads each one, and
appends the grayscale conversion when the read succeeds, silently
skipping failed reads. -/
def sample_frames {α β : Type} (cvtGray : α → β) (cap : Capture α)
    (sample_rate : Nat) : List β :=
  let total_frames := cap.frameCount
  (pyRange total_frames sample_rate).foldl
    (fun frames i =>
      match cap.readAt i with
      | some frame => frames ++ [cvtGray frame]
      | none => frames)
    []

theorem foldl_append_filterMap {α β : Type} (f : Nat → Option α) (g : α → β) :
    ∀ (l : List Nat) (acc : List β),
      l.foldl (fun frames i =>
        match f i with
        | some a => frames ++ [g a]
        | none => frames) acc = acc ++ (l.filterMap f).map g := by
  intro l
  induction l with
  | nil => simp
  | cons i t ih =>
    intro acc
    cases h : f i <;> simp [List.foldl_cons, List.filterMap_cons, h, ih]

/-- C4 counterexample: an unopenable file — a capture with `opened =
false`, even one whose stream holds a decodable frame — makes
`sample_frames` return the empty list as a normal result (the frame count
reads as 0), instead of signalling a `MediaOpenError`; no such exception
exists anywhere in the code. -/
theorem C4_unopenable_returns_empty :
    sample_frames (fun n : Nat => n) ⟨false, [some 7]⟩ 30 = [] := rfl

/-- C4 amended: `sample_frames` returns the empty frame list both for a
file the decoder cannot open and for a file that opens with 0 decodable
frames; the two cases are indistinguishable to the caller and neither
signals an error. -/
theorem C4_open_failure_and_zero_frames_agree {α β : Type} (cvtGray : α → β)
    (cap : Capture α) (sample_rate : Nat) :
    (cap.opened = false → sample_frames cvtGray cap sample_rate = []) ∧
    (cap.frames = [] → sample_frames cvtGray cap sample_rate = []) := by
  have hzero : ∀ rate : Nat, pyRange 0 rate = [] := by
    intro rate
    cases rate with
    | zero => simp [pyRange]
    | succ r =>
      simp only [pyRange]
      rw [Nat.div_eq_of_lt (by omega)]
      simp
  constructor
  · intro h
    simp [sample_frames, Capture.frameCount, h, hzero]
  · intro h
    simp [sample_frames, Capture.frameCount, h, hzero]

/-- C4 witness: an unopenable single-frame capture and an opened
zero-frame capture both yield the empty sample list, through the amended
theorem. -/
theorem C4_open_failure_and_zero_frames_agree_witness :
    (Capture.mk false [some 7] : Capture Nat).opened = false ∧
    sample_frames (fun n : Nat => n) ⟨false, [some 7]⟩ 30 = [] ∧
    (Capture.mk true [] : Capture Nat).frames = [] ∧
    sample_frames (fun n : Nat => n) ⟨true, []⟩ 30 = [] :=
  ⟨rfl,
    (C4_open_failure_and_zero_frames_agree (fun n : Nat => n) ⟨false, [some 7]⟩ 30).1 rfl,
    rfl,
    (C4_open_failure_and_zero_frames_agree (fun n : Nat => n) ⟨true, []⟩ 30).2 rfl⟩

theorem lt_ceil_div_iff (T S k : Nat) (hS : 0 < S) :
    k < (T + S - 1) / S ↔ k * S < T := by
  rw [Nat.lt_iff_add_one_le, Nat.le_div_iff_mul_le hS]
  have h : (k + 1) * S = k * S + S := by ring
  rw [h]
  generalize k * S = m
  omega

/-- C6: for an opened capture with `T` decodable frame slots and a
positive stride `S`, `sample_frames` (1) equals the grayscale conversion
mapped over the successful reads along `range(0, T, S)`, so a failed
decode is skipped without substitution; (2) that index list holds exactly
the multiples of `S` below `T`; (3) in strictly ascending temporal order;
and (4) the output has at most `⌈T/S⌉` frames. -/
theorem C6_sample_frames_spec {α β : Type} (cvtGray : α → β) (cap : Capture α)
    (S : Nat) (hop : cap.opened = true) (hS : 0 < S) :
    sample_frames cvtGray cap S
        = ((pyRange cap.frames.length S).filterMap
            (fun i => cap.frames.getD i none)).map cvtGray ∧
    (∀ i, i ∈ pyRange cap.frames.length S ↔
        ∃ k, i = k * S ∧ i < cap.frames.length) ∧
    List.Sorted (· < ·) (pyRange cap.frames.length S) ∧
    (sample_frames cvtGray cap S).length
        ≤ (cap.frames.length + S - 1) / S := by
  have hcount : cap.frameCount = cap.frames.length := by
    simp [Capture.frameCount, hop]
  have hread : cap.readAt = fun i => cap.frames.getD i none := by
    funext i
    simp [Capture.readAt, hop]
  have hchar : sample_frames cvtGray cap S
      = ((pyRange cap.frames.length S).filterMap
          (fun i => cap.frames.getD i none)).map cvtGray := by
    simp only [sample_frames, hcount, hread]
    rw [foldl_append_filterMap]
    simp
  refine ⟨hchar, ?_, ?_, ?_⟩
  · intro i
    simp only [pyRange, List.mem_map, List.mem_range]
    constructor
    · rintro ⟨k, hk, rfl⟩
      exact ⟨k, rfl, (lt_ceil_div_iff _ _ _ hS).mp hk⟩
    · rintro ⟨k, rfl, hk⟩
      exact ⟨k, (lt_ceil_div_iff _ _ _ hS).mpr hk, rfl⟩
  · exact List.Pairwise.map _
      (fun a b hab => mul_lt_mul_of_pos_right hab hS)
      (List.sorted_lt_range _)
  · rw [hchar, List.length_map]
    calc ((pyRange cap.frames.length S).filterMap
            (fun i => cap.frames.getD i none)).length
        ≤ (pyRange cap.frames.length S).length :=
          List.length_filterMap_le _ _
      _ = (cap.frames.length + S - 1) / S := by
          simp [pyRange]

/-- C6 witness: an opened five-slot capture with decode failures at
indices 1 and 3, sampled at stride 2, reads indices 0, 2, 4 and returns
their three frames; the bound `⌈5/2⌉ = 3` holds. -/
theorem C6_sample_frames_spec_witness :
    (Capture.mk true [some 10, none, some 20, none, some 30] : Capture Nat).opened
        = true ∧
    0 < 2 ∧
    sample_frames (fun n : Nat => n)
        ⟨true, [some 10, none, some 20, none, some 30]⟩ 2
      = ((pyRange 5 2).filterMap
          (fun i => ([some 10, none, some 20, none, some 30] :
            List (Option Nat)).getD i none)).map (fun n => n) ∧
    (sample_frames (fun n : Nat => n)
        ⟨true, [some 10, none, some 20, none, some 30]⟩ 2).length
      ≤ (5 + 2 - 1) / 2 := by
  have h := C6_sample_frames_spec (fun n : Nat => n)
    ⟨true, [some 10, none, some 20, none, some 30]⟩ 2 rfl (by decide)
  exact ⟨rfl, by decide, h.1, h.2.2.2⟩

theorem npMean_perm {xs ys : List ℚ} (h : xs.Perm ys) :
    npMean xs = npMean ys := by
  have hlen : xs.length = ys.length := h.length_eq
  have hsum : xs.sum = ys.sum := h.sum_eq
  have hemp : xs.isEmpty = ys.isEmpty := by
    cases xs <;> cases ys <;> simp_all
  simp [npMean, hemp, hlen, hsum]

/-- C7: for every non-empty frame sequence, permuting the frames leaves
the aggregate `analyze_fft` result unchanged: the aggregate is the plain
arithmetic mean of the order-independent per-frame artifact scores. -/
theorem C7_analyze_fft_perm_invariant (fs1 fs2 : List (List (List ℚ)))
    (hne : fs1 ≠ []) (hperm : fs1.Perm fs2) :
    analyze_fft fs1 = analyze_fft fs2 := by
  exact npMean_perm (hperm.map fft_artifact_score)

/-- C7 witness: swapping the two spectra of a two-frame sequence leaves
the aggregate score unchanged. -/
theorem C7_analyze_fft_perm_invariant_witness :
    ([[[1, 2]], [[3, 4]]] : List (List (List ℚ))) ≠ [] ∧
    analyze_fft [[[1, 2]], [[3, 4]]] = analyze_fft [[[3, 4]], [[1, 2]]] := by
  refine ⟨by simp, ?_⟩
  exact C7_analyze_fft_perm_invariant _ _ (by simp)
    (List.Perm.swap [[3, 4]] [[1, 2]] [])

/-! ### Analysis cache: `fetch_video_analysis_record` and
`upsert_video_analysis_record` (db.py lines 219-320 and 323-405) -/

/-- Python `str.strip()` with no argument: drops leading and trailing
whitespace from the string. -/
def pyStrip (s : String) : String :=
  String.mk
    ((s.data.dropWhile Char.isWhitespace).reverse.dropWhile
      Char.isWhitespace).reverse

/-- A row of the `video_analysis_records` table (db.py lines 80-99).
`id` models the UUID primary key, timestamps are abstract instants
(`Nat`), float columns are `Option ℚ` (nullable `DOUBLE PRECISION`) and
`fact_urls` is the decoded JSONB list. -/
structure VideoAnalysisRecord where
  id : Nat
  video_url : String
  video_id : Option String
  video_path : String
  fft_score : Option ℚ
  motion_score : Option ℚ
  ai_result : Option String
  transcript : Option String
  transcript_srt : Option String
  duration : Option ℚ
  fact_accuracy : Option String
  fact_accuracy_reason : Option String
  fact_reason : Option String
  fact_urls : List String
  raw_fact_response : Option String
  created_at : Nat
  updated_at : Nat
deriving DecidableEq

/-- Shallow embedding of `fetch_video_analysis_record(video_url,
video_id)`.  The table is a list of rows; `fetchrow` with
`WHERE video_url = $1` is the first row matching the stripped URL.  The
fallback `fetchrow` on `video_id` runs only under Python's
`if record is None and video_id:`, whose truthiness treats both `None`
and the empty string as no video ID. -/
def fetch_video_analysis_record (db : List VideoAnalysisRecord)
    (video_url : String) (video_id : Option String) :
    Option VideoAnalysisRecord :=
  let normalized_url := pyStrip video_url
  match db.find? (fun r => r.video_url == normalized_url) with
  | some record => some record
  | none =>
    match video_id with
    | some vid =>
      if vid = "" then none
      else db.find? (fun r => r.video_id == some vid)
    | none => none

/-- C8 counterexample record: a stored row whose `video_id` is the empty
string (a non-null `TEXT` value the schema allows). -/
def emptyIdRecord : VideoAnalysisRecord :=
  { id := 1, video_url := "https://www.youtube.com/watch?v=abc",
    video_id := some "", video_path := "videos/abc.mp4",
    fft_score := none, motion_score := some 4,
    ai_result := some "AI 생성 가능성 있음", transcript := none,
    transcript_srt := none, duration := some 10, fact_accuracy := none,
    fact_accuracy_reason := none, fact_reason := none, fact_urls := [],
    raw_fact_response := none, created_at := 0, updated_at := 0 }

/-- C8 counterexample: the URL lookup misses, a video ID (the empty
string) is supplied, and a stored record with exactly that `video_id`
exists — yet the lookup returns no record, because Python's truthiness
check `if record is None and video_id:` treats the empty string as no
video ID and never consults the fallback. -/
theorem C8_empty_id_fallback_skipped :
    [emptyIdRecord].find?
        (fun r => r.video_url == pyStrip "https://other.example/v")
      = none ∧
    [emptyIdRecord].find? (fun r => r.video_id == some "")
      = some emptyIdRecord ∧
    fetch_video_analysis_record [emptyIdRecord] "https://other.example/v"
        (some "") = none := by
  refine ⟨by decide, by decide, by decide⟩

/-- C8 amended: the lookup tries the stripped canonical URL first and
returns any match regardless of the supplied video ID; when the URL
lookup misses it falls back to the video ID only if one was supplied and
is non-empty (Python truthiness); otherwise — no video ID, or the empty
string — it returns no record. -/
theorem C8_fetch_lookup_spec (db : List VideoAnalysisRecord)
    (video_url : String) (video_id : Option String) :
    (∀ r, db.find? (fun x => x.video_url == pyStrip video_url) = some r →
        fetch_video_analysis_record db video_url video_id = some r) ∧
    (db.find? (fun x => x.video_url == pyStrip video_url) = none →
      ∀ v, video_id = some v → v ≠ "" →
        fetch_video_analysis_record db video_url video_id
          = db.find? (fun x => x.video_id == some v)) ∧
    (db.find? (fun x => x.video_url == pyStrip video_url) = none →
      video_id = none ∨ video_id = some "" →
        fetch_video_analysis_record db video_url video_id = none) := by
  refine ⟨?_, ?_, ?_⟩
  · intro r hr
    simp [fetch_video_analysis_record, hr]
  · intro hmiss v hv hne
    subst hv
    simp [fetch_video_analysis_record, hmiss, hne]
  · intro hmiss hcase
    rcases hcase with h | h <;> subst h <;>
      simp [fetch_video_analysis_record, hmiss]

/-- C8 witness record: a stored row for URL `"u"` with video ID `"x"`. -/
def storedRecord : VideoAnalysisRecord :=
  { id := 2, video_url := "u", video_id := some "x",
    video_path := "videos/x.mp4", fft_score := none,
    motion_score := some 8, ai_result := some "실제 영상 가능성 있음",
    transcript := some "hello", transcript_srt := none,
    duration := some 3, fact_accuracy := none,
    fact_accuracy_reason := none, fact_reason := none, fact_urls := [],
    raw_fact_response := none, created_at := 1, updated_at := 1 }

/-- C8 witness: a URL hit returns the stored record ignoring the video
ID, and a URL miss with the non-empty supplied ID `"x"` falls back to the
ID lookup and finds the record. -/
theorem C8_fetch_lookup_spec_witness :
    fetch_video_analysis_record [storedRecord] "u" (some "zzz")
      = some storedRecord ∧
    fetch_video_analysis_record [storedRecord] "w" (some "x")
      = some storedRecord := by
  constructor
  · exact (C8_fetch_lookup_spec [storedRecord] "u" (some "zzz")).1
      storedRecord (by decide)
  · exact ((C8_fetch_lookup_spec [storedRecord] "w" (some "x")).2.1
      (by decide) "x" rfl (by decide)).trans (by decide)

/-- The keyword arguments of `upsert_video_analysis_record` (db.py lines
323-339): everything the caller passes except the generated `id` and the
database-side timestamps. -/
structure UpsertInput where
  video_url : String
  video_id : Option String
  video_path : String
  fft_score : Option ℚ
  motion_score : Option ℚ
  ai_result : Option String
  transcript : Option String
  transcript_srt : Option String
  duration : Option ℚ
  fact_accuracy : Option String
  fact_accuracy_reason : Option String
  fact_reason : Option String
  fact_urls : Option (List String)
  raw_fact_response : Option String
deriving DecidableEq

/-- The `ON CONFLICT (video_url) DO UPDATE SET` arm (db.py lines 370-385):
every mutable column is overwritten from the excluded row (with
`json.dumps(fact_urls or [])` decoding to `fact_urls.getD []`) and
`updated_at` is set to `NOW()`; `id`, `video_url` and `created_at` are not
in the `SET` list and keep their stored values. -/
def applyConflictUpdate (inp : UpsertInput) (now : Nat)
    (r : VideoAnalysisRecord) : VideoAnalysisRecord :=
  { r with
    video_id := inp.video_id
    video_path := inp.video_path
    fft_score := inp.fft_score
    motion_score := inp.motion_score
    ai_result := inp.ai_result
    transcript := inp.transcript
    transcript_srt := inp.transcript_srt
    duration := inp.duration
    fact_accuracy := inp.fact_accuracy
    fact_accuracy_reason := inp.fact_accuracy_reason
    fact_reason := inp.fact_reason
    fact_urls := inp.fact_urls.getD []
    raw_fact_response := inp.raw_fact_response
    updated_at := now }

/-- Shallow embedding of `upsert_video_analysis_record(...)`.  A fresh
`record_id` (`uuid4()`) and the clock instant `now` (`NOW()`) are passed
in explicitly.  The `INSERT ... ON CONFLICT (video_url) DO UPDATE ...
RETURNING id` statement either appends a brand-new row keyed by the
stripped URL (both timestamps defaulting to `NOW()`) and returns the
fresh id, or rewrites the one conflicting row in place and returns that
row's stored id.  Rewriting is modelled as a map that touches exactly the
rows matching the conflict key; under the unique index
`uq_video_analysis_video_url` at most one row can match. -/
def upsert_video_analysis_record (db : List VideoAnalysisRecord)
    (record_id : Nat) (now : Nat) (inp : UpsertInput) :
    List VideoAnalysisRecord × Nat :=
  let url := pyStrip inp.video_url
  match db.find? (fun r => r.video_url == url) with
  | some old =>
    (db.map fun r =>
      if r.video_url == url then applyConflictUpdate inp now r else r,
      old.id)
  | none =>
    (db ++ [{ id := record_id, video_url := url, video_id := inp.video_id,
              video_path := inp.video_path, fft_score := inp.fft_score,
              motion_score := inp.motion_score, ai_result := inp.ai_result,
              transcript := inp.transcript,
              transcript_srt := inp.transcript_srt,
              duration := inp.duration, fact_accuracy := inp.fact_accuracy,
              fact_accuracy_reason := inp.fact_accuracy_reason,
              fact_reason := inp.fact_reason,
              fact_urls := inp.fact_urls.getD [],
              raw_fact_response := inp.raw_fact_response,
              created_at := now, updated_at := now }],
      record_id)

theorem find?_map_ite {α : Type} (p : α → Bool) (u : α → α)
    (hp : ∀ a, p a = true → p (u a) = true) :
    ∀ (l : List α) (x : α), l.find? p = some x →
      (l.map fun a => if p a then u a else a).find? p = some (u x) := by
  intro l
  induction l with
  | nil => simp
  | cons a t ih =>
    intro x hx
    rw [List.find?_cons] at hx
    by_cases h : p a = true
    · rw [h] at hx
      simp only [Option.some.injEq] at hx
      subst hx
      simp [List.map_cons, List.find?_cons, h, hp a h]
    · rw [Bool.not_eq_true] at h
      rw [h] at hx
      simp [List.map_cons, List.find?_cons, h, ih x hx]

theorem filter_map_ite_length {α : Type} (p : α → Bool) (u : α → α)
    (hp : ∀ a, p a = true → p (u a) = true) :
    ∀ l : List α,
      ((l.map fun a => if p a then u a else a).filter p).length
        = (l.filter p).length := by
  intro l
  induction l with
  | nil => simp
  | cons a t ih =>
    by_cases h : p a = true
    · simp [List.filter_cons, h, hp a h, ih]
    · rw [Bool.not_eq_true] at h
      simp [List.filter_cons, h, ih]

theorem one_le_length_filter_of_find? {α : Type} {p : α → Bool}
    {l : List α} {x : α} (hx : l.find? p = some x) :
    1 ≤ (l.filter p).length := by
  have hmem : x ∈ l.filter p :=
    List.mem_filter.mpr ⟨List.mem_of_find?_eq_some hx, List.find?_some hx⟩
  exact List.length_pos.mpr (List.ne_nil_of_mem hmem)

/-- C9: upserting when a row for the stripped canonical URL already
exists returns the stored row's id, rewrites that row in place —
overwriting every mutable column (scores, verdict, transcript and
fact-check fields) from the input and setting `updated_at` to the current
instant, while keeping `id`, `video_url` and `created_at` — and, as long
as at most one row for the URL exists beforehand (the unique-index
invariant, in particular after any number of prior upserts), exactly one
row for that URL exists afterwards, the insert arm establishing the same
count when no row existed. -/
theorem C9_upsert_overwrites_in_place (db : List VideoAnalysisRecord)
    (record_id now : Nat) (inp : UpsertInput) :
    (∀ old,
      db.find? (fun r => r.video_url == pyStrip inp.video_url) = some old →
        (upsert_video_analysis_record db record_id now inp).2 = old.id ∧
        (upsert_video_analysis_record db record_id now inp).1.find?
            (fun r => r.video_url == pyStrip inp.video_url)
          = some (applyConflictUpdate inp now old) ∧
        (applyConflictUpdate inp now old).id = old.id ∧
        (applyConflictUpdate inp now old).video_url = old.video_url ∧
        (applyConflictUpdate inp now old).created_at = old.created_at ∧
        (applyConflictUpdate inp now old).updated_at = now ∧
        (applyConflictUpdate inp now old).video_id = inp.video_id ∧
        (applyConflictUpdate inp now old).video_path = inp.video_path ∧
        (applyConflictUpdate inp now old).fft_score = inp.fft_score ∧
        (applyConflictUpdate inp now old).motion_score = inp.motion_score ∧
        (applyConflictUpdate inp now old).ai_result = inp.ai_result ∧
        (applyConflictUpdate inp now old).transcript = inp.transcript ∧
        (applyConflictUpdate inp now old).transcript_srt
          = inp.transcript_srt ∧
        (applyConflictUpdate inp now old).duration = inp.duration ∧
        (applyConflictUpdate inp now old).fact_accuracy
          = inp.fact_accuracy ∧
        (applyConflictUpdate inp now old).fact_accuracy_reason
          = inp.fact_accuracy_reason ∧
        (applyConflictUpdate inp now old).fact_reason = inp.fact_reason ∧
        (applyConflictUpdate inp now old).fact_urls
          = inp.fact_urls.getD [] ∧
        (applyConflictUpdate inp now old).raw_fact_response
          = inp.raw_fact_response) ∧
    ((db.filter (fun r => r.video_url == pyStrip inp.video_url)).length
        ≤ 1 →
      ((upsert_video_analysis_record db record_id now inp).1.filter
          (fun r => r.video_url == pyStrip inp.video_url)).length = 1) := by
  have hpres : ∀ r : VideoAnalysisRecord,
      (r.video_url == pyStrip inp.video_url) = true →
      ((applyConflictUpdate inp now r).video_url
        == pyStrip inp.video_url) = true := by
    intro r h
    simpa [applyConflictUpdate] using h
  constructor
  · intro old hold
    refine ⟨?_, ?_, rfl, rfl, rfl, rfl, rfl, rfl, rfl, rfl, rfl, rfl,
      rfl, rfl, rfl, rfl, rfl, rfl, rfl⟩
    · simp [upsert_video_analysis_record, hold]
    · simp only [upsert_video_analysis_record, hold]
      exact find?_map_ite _ _ hpres db old hold
  · intro hle
    rcases hfind : db.find?
        (fun r => r.video_url == pyStrip inp.video_url) with _ | old
    · have hnil : db.filter
          (fun r => r.video_url == pyStrip inp.video_url) = [] := by
        rw [List.filter_eq_nil_iff]
        intro a ha
        have := List.find?_eq_none.mp hfind a ha
        simpa using this
      simp [upsert_video_analysis_record, hfind, List.filter_append, hnil]
    · have hlen := filter_map_ite_length
        (fun r => r.video_url == pyStrip inp.video_url)
        (applyConflictUpdate inp now) hpres db
      have hge := one_le_length_filter_of_find? hfind
      simp only [upsert_video_analysis_record, hfind]
      rw [hlen]
      omega

/-- C9 witness: upserting fresh analysis results over the stored row for
URL `"u"` keeps the row's id 2 and leaves exactly one row for `"u"`. -/
theorem C9_upsert_overwrites_in_place_witness :
    ([storedRecord].find?
        (fun r => r.video_url == pyStrip "u") = some storedRecord) ∧
    (upsert_video_analysis_record [storedRecord] 99 7
        { video_url := "u", video_id := some "x",
          video_path := "videos/x.mp4", fft_score := some 1,
          motion_score := some 2, ai_result := some "AI 생성 가능성 있음",
          transcript := none, transcript_srt := none, duration := none,
          fact_accuracy := none, fact_accuracy_reason := none,
          fact_reason := none, fact_urls := none,
          raw_fact_response := none }).2 = 2 ∧
    ((upsert_video_analysis_record [storedRecord] 99 7
        { video_url := "u", video_id := some "x",
          video_path := "videos/x.mp4", fft_score := some 1,
          motion_score := some 2, ai_result := some "AI 생성 가능성 있음",
          transcript := none, transcript_srt := none, duration := none,
          fact_accuracy := none, fact_accuracy_reason := none,
          fact_reason := none, fact_urls := none,
          raw_fact_response := none }).1.filter
        (fun r => r.video_url == pyStrip "u")).length = 1 := by
  have h := C9_upsert_overwrites_in_place [storedRecord] 99 7
    { video_url := "u", video_id := some "x",
      video_path := "videos/x.mp4", fft_score := some 1,
      motion_score := some 2, ai_result := some "AI 생성 가능성 있음",
      transcript := none, transcript_srt := none, duration := none,
      fact_accuracy := none, fact_accuracy_reason := none,
      fact_reason := none, fact_urls := none, raw_fact_response := none }
  exact ⟨by decide, (h.1 storedRecord (by decide)).1, h.2 (by decide)⟩

/-- C10: the verdict returned by `predict_ai_video` does not depend on the
motion score: for every artifact score and every two motion scores the
results coincide, because the final artifact-score if/else reassigns the
result on every path. -/
theorem C10_verdict_ignores_motion_score (a m1 m2 : ℚ) :
    predict_ai_video a m1 = predict_ai_video a m2 := rfl

end HackTruth
